import Mathlib

set_option linter.unusedVariables false

/-!
Shallow embedding of the weather API repository (Django REST service in
`weather/api/`): the override cache model, the repository layer, the two
weather providers, the provider-chain service, the serializers and the
forecast view.

Modelling conventions:
* Temperatures are Python floats used only for storage, equality and order
  comparison (never arithmetic); they are modelled as `Int`.
* Dates are `datetime.date` values used only for order comparison, equality
  and stringification; they are modelled as ordinal day numbers (`Nat`), and
  Python `str(date)` is modelled by `toString` of the ordinal (both renderings
  are injective, which is the only property the code relies on).
* A Python function that can raise an unhandled exception is modelled with an
  `Option`/`Except` result whose `none`/`.error` case is the escaping
  exception.
* An upstream HTTP call is modelled by an `HttpResp` value: `.ok body` is a
  2xx response with parsed JSON body, and the three failure constructors are
  the three `except` clauses in the source (`requests.exceptions.
  ConnectionError`, `Timeout`, and any other `RequestException`, which also
  covers `raise_for_status` errors and JSON decoding errors).
-/

namespace Weather

/-- Mirror of `models.Сache` (the override record; the source class name starts with a Cyrillic letter, transliterated here): city, date and the two
pinned temperatures, keyed by (city, date). -/
structure Cache where
  city : String
  date : Nat
  min_temperature : Int
  max_temperature : Int
deriving Repr, DecidableEq

/-- Mirror of `BaseRepo.get` specialised to the lookup used by the code,
`CacheRepo().get(city=city, date=date)`. Django `Model.objects.get` returns
the unique matching row, raises `DoesNotExist` when there is none (caught by
`BaseRepo.get`, which returns `None`), and raises `MultipleObjectsReturned`
when several match (not caught: `.error ()` models the escaping exception). -/
def BaseRepo.get (store : List Cache) (city : String) (d : Nat) :
    Except Unit (Option Cache) :=
  match store.filter (fun r => r.city == city && r.date == d) with
  | [] => .ok none
  | [r] => .ok (some r)
  | _ => .error ()

/-- Mirror of `BaseRepo.create_or_update` (Django `update_or_create` keyed by
(city, date)): if no row matches, a new row is created (`created = true`);
if exactly one matches, its two temperature fields are replaced in place
(`created = false`); several matches raise `MultipleObjectsReturned`.
Returns the new store, the resulting object and the `created` flag. -/
def BaseRepo.create_or_update (store : List Cache) (city : String) (d : Nat)
    (mn mx : Int) : Except Unit (List Cache × Cache × Bool) :=
  match BaseRepo.get store city d with
  | .error e => .error e
  | .ok none =>
      let r : Cache := ⟨city, d, mn, mx⟩
      .ok (store ++ [r], r, true)
  | .ok (some r) =>
      .ok (store.map (fun s =>
              if s.city == city && s.date == d then
                { s with min_temperature := mn, max_temperature := mx }
              else s),
           { r with min_temperature := mn, max_temperature := mx },
           false)

/-- Outcome of one upstream HTTP request: parsed 2xx body, or one of the
three exception classes distinguished by the source's `except` clauses. -/
inductive HttpResp (α : Type) where
  | ok : α → HttpResp α
  | connectionError : HttpResp α
  | timeout : HttpResp α
  | requestError : HttpResp α
deriving DecidableEq

/-- One entry of the geocoding response's `results` array. `latitude` and
`longitude` are always present in the upstream schema (the code indexes them
unconditionally); `timezone` may be absent (the code uses `.get` with the
default `'auto'`). -/
structure GeoResult where
  latitude : Int
  longitude : Int
  timezone : Option String
deriving Repr, DecidableEq

/-- Parsed JSON body of a geocoding response: the `results` key may be absent
(`none`), which the source treats like an empty list. -/
structure GeoBody where
  results : Option (List GeoResult)
deriving DecidableEq

/-- The dictionary `_get_geocoding` builds from the first geocoding result. -/
structure GeoData where
  latitude : Int
  longitude : Int
  timezone : String
deriving Repr, DecidableEq

/-- The `daily` object of a forecast response. A key absent from the JSON is
read by the source with `.get(key, [])`, so absence coincides with the empty
list and the three arrays are modelled as plain lists. -/
structure DailyData where
  time : List String
  temperature_2m_min : List Int
  temperature_2m_max : List Int
deriving Repr, DecidableEq

/-- Parsed JSON body of a 10-day forecast response: `daily` may be absent. -/
structure ForecastBody where
  daily : Option DailyData
deriving DecidableEq

/-- The `current_weather` object of a current-conditions response: the
`temperature` key may be absent (the source checks `"temperature" not in`). -/
structure CurrentWeatherField where
  temperature : Option Int
deriving DecidableEq

/-- Parsed JSON body of a current-conditions response: `current_weather` and
`utc_offset_seconds` may each be absent. -/
structure CurrentBody where
  current_weather : Option CurrentWeatherField
  utc_offset_seconds : Option Int
deriving DecidableEq

/-- The payload `{'min_temperature': ..., 'max_temperature': ...}` returned
for a successful forecast request. -/
structure ForecastData where
  min_temperature : Int
  max_temperature : Int
deriving Repr, DecidableEq

/-- The payload `{'temperature': ..., 'local_time': ...}` returned for a
successful current-weather request. `local_time` abstracts the source's
`(datetime.now() + offset).strftime('%H:%M')` as the unformatted instant
`now + offset`; no claim inspects the formatted string. -/
structure CurrentData where
  temperature : Int
  local_time : Int
deriving Repr, DecidableEq

/-- The fixed upstream responses observed by one request, together with the
server clock `now` read by `_get_local_time`. -/
structure OpenMeteoEnv where
  geocodingResp : HttpResp GeoBody
  forecastResp : HttpResp ForecastBody
  currentResp : HttpResp CurrentBody
  now : Int
deriving DecidableEq

/-- Mirror of `OpenMeteoWeatherProvider._get_geocoding`: absent or empty
`results` means 404; otherwise the first result is used, with `timezone`
defaulting to the literal `"auto"`; the three exception classes map to
503 / 504 / 500. -/
def OpenMeteoWeatherProvider._get_geocoding (resp : HttpResp GeoBody) :
    Nat × Option GeoData :=
  match resp with
  | .ok body =>
      match body.results with
      | none => (404, none)
      | some [] => (404, none)
      | some (r :: _) =>
          (200, some ⟨r.latitude, r.longitude, r.timezone.getD "auto"⟩)
  | .connectionError => (503, none)
  | .timeout => (504, none)
  | .requestError => (500, none)

/-- Mirror of `OpenMeteoWeatherProvider._get_local_time`, abstracting the
`strftime('%H:%M')` formatting of `datetime.now() + timedelta(seconds=off)`
as the unformatted instant. -/
def OpenMeteoWeatherProvider._get_local_time (now offset_seconds : Int) : Int :=
  now + offset_seconds

/-- Mirror of `OpenMeteoWeatherProvider.get_forecast_weather`. A failed
geocoding propagates its status with no data. On a 2xx forecast body, absent
`daily` or any empty array yields 500; otherwise the date list is scanned for
the first exact string match of `str(date)`; a match at index `i` returns the
min/max temperatures at `i`, where an out-of-range index is an unhandled
`IndexError` (result `none`); no match yields 404. -/
def OpenMeteoWeatherProvider.get_forecast_weather (env : OpenMeteoEnv)
    (city : String) (d : Nat) : Option (Nat × Option ForecastData) :=
  let g := OpenMeteoWeatherProvider._get_geocoding env.geocodingResp
  if g.1 ≠ 200 ∨ g.2 = none then some (g.1, none)
  else
    match env.forecastResp with
    | .ok body =>
        match body.daily with
        | none => some (500, none)
        | some daily =>
            if daily.time = [] ∨ daily.temperature_2m_min = [] ∨
                daily.temperature_2m_max = [] then
              some (500, none)
            else
              match daily.time.findIdx? (fun s => s == toString d) with
              | none => some (404, none)
              | some i =>
                  match daily.temperature_2m_min[i]?,
                        daily.temperature_2m_max[i]? with
                  | some mn, some mx => some (200, some ⟨mn, mx⟩)
                  | _, _ => none
    | .connectionError => some (503, none)
    | .timeout => some (504, none)
    | .requestError => some (500, none)

/-- Mirror of `OpenMeteoWeatherProvider.get_current_weather`. A failed
geocoding propagates its status with no data. On a 2xx body, a missing or
empty `current_weather` object, or one without a `temperature` key, yields
500; otherwise the temperature is returned together with the local time
computed from `utc_offset_seconds` (defaulting to 0). -/
def OpenMeteoWeatherProvider.get_current_weather (env : OpenMeteoEnv)
    (city : String) : Option (Nat × Option CurrentData) :=
  let g := OpenMeteoWeatherProvider._get_geocoding env.geocodingResp
  if g.1 ≠ 200 ∨ g.2 = none then some (g.1, none)
  else
    match env.currentResp with
    | .ok body =>
        match body.current_weather with
        | none => some (500, none)
        | some cw =>
            match cw.temperature with
            | none => some (500, none)
            | some t =>
                some (200, some ⟨t,
                  OpenMeteoWeatherProvider._get_local_time env.now
                    (body.utc_offset_seconds.getD 0)⟩)
    | .connectionError => some (503, none)
    | .timeout => some (504, none)
    | .requestError => some (500, none)

/-- Mirror of `CacheWeatherProvider.get_forecast_weather`: a cache hit is
(200, the stored temperatures); a miss is (404, no data); a store holding
several rows for the key raises `MultipleObjectsReturned` (result `none`). -/
def CacheWeatherProvider.get_forecast_weather (store : List Cache)
    (city : String) (d : Nat) : Option (Nat × Option ForecastData) :=
  match BaseRepo.get store city d with
  | .error _ => none
  | .ok (some c) => some (200, some ⟨c.min_temperature, c.max_temperature⟩)
  | .ok none => some (404, none)

/-- Mirror of `CacheWeatherProvider.get_current_weather`, which always raises
`NotImplementedError`. -/
def CacheWeatherProvider.get_current_weather (store : List Cache)
    (city : String) : Option (Nat × Option CurrentData) :=
  none

/-- The body of both `WeatherService` loops, applied to the list of provider
results for the request: return the first result with status 200; on a
non-200 result continue if providers remain, else return the last status with
no data. The empty list models the Python loop falling through with the local
`status` unbound (an unhandled `NameError`), and a provider raising
(result `none`) propagates. -/
def WeatherService.run {δ : Type} :
    List (Option (Nat × Option δ)) → Option (Nat × Option δ)
  | [] => none
  | r :: rs =>
      match r with
      | none => none
      | some (st, data) =>
          if st = 200 then some (st, data)
          else
            match rs with
            | [] => some (st, none)
            | _ :: _ => WeatherService.run rs

/-- Mirror of `WeatherService.get_forecast_weather`: query the providers in
the given order with the request's (city, date). -/
def WeatherService.get_forecast_weather {δ : Type}
    (providers : List (String → Nat → Option (Nat × Option δ)))
    (city : String) (d : Nat) : Option (Nat × Option δ) :=
  WeatherService.run (providers.map (fun p => p city d))

/-- Mirror of `WeatherService.get_current_weather`: query the providers in
the given order with the request's city. -/
def WeatherService.get_current_weather {δ : Type}
    (providers : List (String → Option (Nat × Option δ)))
    (city : String) : Option (Nat × Option δ) :=
  WeatherService.run (providers.map (fun p => p city))

/-- Instrumented variant of `WeatherService.run` that also records, in order,
the provider results actually consumed by the loop (one entry per provider
queried). -/
def WeatherService.runTrace {δ : Type} :
    List (Option (Nat × Option δ)) →
      List (Option (Nat × Option δ)) × Option (Nat × Option δ)
  | [] => ([], none)
  | r :: rs =>
      match r with
      | none => ([r], none)
      | some (st, data) =>
          if st = 200 then ([r], some (st, data))
          else
            match rs with
            | [] => ([r], some (st, none))
            | _ :: _ =>
                let t := WeatherService.runTrace rs
                (r :: t.1, t.2)

/-- Mirror of `ForecastWeatherSerializer.validate_date` (and textually also of
`ForecastCacheWeatherSerializer.validate_date`): a date before `today` or
after `today + 10` days raises a `ValidationError` (`none`); otherwise the
date is returned unchanged. -/
def ForecastWeatherSerializer.validate_date (today d : Nat) : Option Nat :=
  if d < today then none
  else if d > today + 10 then none
  else some d

/-- Mirror of `ForecastCacheWeatherSerializer.validate_date`; same body as
`ForecastWeatherSerializer.validate_date`. -/
def ForecastCacheWeatherSerializer.validate_date (today d : Nat) : Option Nat :=
  if d < today then none
  else if d > today + 10 then none
  else some d

/-- Mirror of `ForecastCacheWeatherSerializer.validate` (the object-level
check): `min_temperature > max_temperature` raises a `ValidationError`. -/
def ForecastCacheWeatherSerializer.validate (mn mx : Int) : Option Unit :=
  if mn > mx then none else some ()

/-- Query parameters of `GET /forecast` as received (each may be absent). -/
structure GetParams where
  city : Option String
  date : Option Nat
deriving DecidableEq

/-- Field plus custom validation of `ForecastWeatherSerializer`: `city` is a
required non-blank `CharField` of at most 20 characters, `date` is a required
date passing `validate_date`. `none` is a `ValidationError` (HTTP 400). -/
def ForecastWeatherSerializer.run_validation (today : Nat) (p : GetParams) :
    Option (String × Nat) :=
  match p.city, p.date with
  | some c, some d =>
      if 0 < c.length ∧ c.length ≤ 20 then
        match ForecastWeatherSerializer.validate_date today d with
        | some d2 => some (c, d2)
        | none => none
      else none
  | _, _ => none

/-- Body of `POST /forecast` as received (each field may be absent). -/
structure PostPayload where
  city : Option String
  date : Option Nat
  min_temperature : Option Int
  max_temperature : Option Int
deriving DecidableEq

/-- The validated data of a successful `ForecastCacheWeatherSerializer` run. -/
structure ValidatedPost where
  city : String
  date : Nat
  min_temperature : Int
  max_temperature : Int
deriving Repr, DecidableEq

/-- Field plus custom validation of `ForecastCacheWeatherSerializer`: the four
required fields, the 20-character city limit, `validate_date` on the date and
the object-level `validate` check. `none` is a `ValidationError` (400). -/
def ForecastCacheWeatherSerializer.run_validation (today : Nat)
    (p : PostPayload) : Option ValidatedPost :=
  match p.city, p.date, p.min_temperature, p.max_temperature with
  | some c, some d, some mn, some mx =>
      if 0 < c.length ∧ c.length ≤ 20 then
        match ForecastCacheWeatherSerializer.validate_date today d with
        | some d2 =>
            match ForecastCacheWeatherSerializer.validate mn mx with
            | some _ => some ⟨c, d2, mn, mx⟩
            | none => none
        | none => none
      else none
  | _, _, _, _ => none

/-- Outcome of `ForecastWeatherView.get` as the view produces it: a 200
response with body, a serializer `ValidationError` (HTTP 400), the DRF
`NotFound` exception (HTTP 404), an `APIException` carrying the code the view
passes, or an exception escaping the view. -/
inductive GetOutcome where
  | ok : ForecastData → GetOutcome
  | validationError : GetOutcome
  | notFound : GetOutcome
  | apiError : Nat → GetOutcome
  | crash : GetOutcome
deriving DecidableEq, Repr

/-- Mirror of `ForecastWeatherView.handle_error`: 404 raises `NotFound`;
503, 504 and 500 raise `APIException` with that code; any other status raises
`APIException` with code 500. -/
def ForecastWeatherView.handle_error (st : Nat) : GetOutcome :=
  if st = 404 then .notFound
  else if st = 503 then .apiError 503
  else if st = 504 then .apiError 504
  else if st = 500 then .apiError 500
  else .apiError 500

/-- Mirror of `ForecastWeatherView.get`: validate the query parameters, run
the provider chain `[CacheWeatherProvider, OpenMeteoWeatherProvider]`, return
the data on status 200 and `handle_error` otherwise. A status-200 result with
no data fails the response serializer (`ValidationError`). -/
def ForecastWeatherView.get (today : Nat) (store : List Cache)
    (env : OpenMeteoEnv) (p : GetParams) : GetOutcome :=
  match ForecastWeatherSerializer.run_validation today p with
  | none => .validationError
  | some (city, d) =>
      match WeatherService.get_forecast_weather
          [CacheWeatherProvider.get_forecast_weather store,
           OpenMeteoWeatherProvider.get_forecast_weather env] city d with
      | none => .crash
      | some (st, data) =>
          if st = 200 then
            match data with
            | some fd => .ok fd
            | none => .validationError
          else ForecastWeatherView.handle_error st

/-- Outcome of `ForecastWeatherView.post`: a 200 response with the `created`
flag, a serializer `ValidationError` (HTTP 400), or an escaping exception. -/
inductive PostOutcome where
  | ok : Bool → PostOutcome
  | validationError : PostOutcome
  | crash : PostOutcome
deriving DecidableEq, Repr

/-- Mirror of `ForecastWeatherView.post`: validate the payload, upsert via
`CacheRepo().create_or_update` keyed by (city, date) with the temperatures as
defaults, and answer 200 with the `created` flag. Returns the store after the
request together with the outcome. -/
def ForecastWeatherView.post (today : Nat) (store : List Cache)
    (p : PostPayload) : List Cache × PostOutcome :=
  match ForecastCacheWeatherSerializer.run_validation today p with
  | none => (store, .validationError)
  | some v =>
      match BaseRepo.create_or_update store v.city v.date
          v.min_temperature v.max_temperature with
      | .error _ => (store, .crash)
      | .ok (store2, _, created) => (store2, .ok created)

/-! ## Helper lemmas -/

/-- A geocoding call classified 200 always carries a data dictionary. -/
theorem geocoding_ok_has_data (resp : HttpResp GeoBody)
    (h : (OpenMeteoWeatherProvider._get_geocoding resp).1 = 200) :
    ∃ gd, (OpenMeteoWeatherProvider._get_geocoding resp).2 = some gd := by
  cases resp with
  | ok body =>
      rcases body with ⟨_ | (_ | ⟨r, rest⟩)⟩ <;>
        simp [OpenMeteoWeatherProvider._get_geocoding] at h ⊢
  | connectionError => simp [OpenMeteoWeatherProvider._get_geocoding] at h
  | timeout => simp [OpenMeteoWeatherProvider._get_geocoding] at h
  | requestError => simp [OpenMeteoWeatherProvider._get_geocoding] at h

/-- Valid query parameters pass `ForecastWeatherSerializer`. -/
theorem run_validation_of_valid (today : Nat) (c : String) (d : Nat)
    (h1 : 0 < c.length) (h2 : c.length ≤ 20)
    (h3 : today ≤ d) (h4 : d ≤ today + 10) :
    ForecastWeatherSerializer.run_validation today ⟨some c, some d⟩ =
      some (c, d) := by
  simp only [ForecastWeatherSerializer.run_validation,
    ForecastWeatherSerializer.validate_date]
  rw [if_pos ⟨h1, h2⟩, if_neg (by omega), if_neg (by omega)]

/-- Valid write payloads pass `ForecastCacheWeatherSerializer`. -/
theorem cache_run_validation_of_valid (today : Nat) (c : String) (d : Nat)
    (mn mx : Int) (h1 : 0 < c.length) (h2 : c.length ≤ 20)
    (h3 : today ≤ d) (h4 : d ≤ today + 10) (hmm : mn ≤ mx) :
    ForecastCacheWeatherSerializer.run_validation today
      ⟨some c, some d, some mn, some mx⟩ = some ⟨c, d, mn, mx⟩ := by
  simp only [ForecastCacheWeatherSerializer.run_validation,
    ForecastCacheWeatherSerializer.validate_date,
    ForecastCacheWeatherSerializer.validate]
  rw [if_pos ⟨h1, h2⟩, if_neg (by omega), if_neg (by omega),
    if_neg (by omega)]

/-- The chain loop stops at a leading 200 result. -/
theorem run_cons_200 {δ : Type} (dat : Option δ)
    (rs : List (Option (Nat × Option δ))) :
    WeatherService.run (some (200, dat) :: rs) = some (200, dat) := by
  cases rs <;> simp [WeatherService.run]

/-- The chain loop skips a leading non-200 result when providers remain. -/
theorem run_cons_non200 {δ : Type} (st : Nat) (dat : Option δ) (hst : st ≠ 200)
    (r : Option (Nat × Option δ)) (rs : List (Option (Nat × Option δ))) :
    WeatherService.run (some (st, dat) :: r :: rs) =
      WeatherService.run (r :: rs) := by
  simp [WeatherService.run, hst]

/-- The chain loop on a single normally-returning provider. -/
theorem run_single {δ : Type} (st : Nat) (dat : Option δ) :
    WeatherService.run [some (st, dat)] =
      if st = 200 then some (st, dat) else some (st, none) := by
  by_cases h : st = 200 <;> simp [WeatherService.run, h]

/-- `ForecastWeatherView.get` on a validated request whose (city, date) has a
(unique) override record: the cache provider answers 200 first, so the
response is that record's temperatures whatever the upstream environment. -/
theorem view_get_cache_hit (today : Nat) (store : List Cache)
    (env : OpenMeteoEnv) (c : String) (d : Nat) (r0 : Cache)
    (hv : ForecastWeatherSerializer.run_validation today ⟨some c, some d⟩ =
      some (c, d))
    (hov : BaseRepo.get store c d = .ok (some r0)) :
    ForecastWeatherView.get today store env ⟨some c, some d⟩ =
      .ok ⟨r0.min_temperature, r0.max_temperature⟩ := by
  unfold ForecastWeatherView.get
  rw [hv]
  unfold WeatherService.get_forecast_weather
  simp only [List.map]
  unfold CacheWeatherProvider.get_forecast_weather
  rw [hov]
  rw [run_cons_200]
  simp

/-- `ForecastWeatherView.get` on a validated request with no override record:
the cache provider answers 404 and the chain delegates to the upstream
provider, whose classified result determines the response. -/
theorem view_get_cache_miss (today : Nat) (store : List Cache)
    (env : OpenMeteoEnv) (c : String) (d : Nat)
    (hv : ForecastWeatherSerializer.run_validation today ⟨some c, some d⟩ =
      some (c, d))
    (hmiss : BaseRepo.get store c d = .ok none) :
    ForecastWeatherView.get today store env ⟨some c, some d⟩ =
      match OpenMeteoWeatherProvider.get_forecast_weather env c d with
      | none => .crash
      | some (st, dat) =>
          if st = 200 then
            match dat with
            | some fd => .ok fd
            | none => .validationError
          else ForecastWeatherView.handle_error st := by
  unfold ForecastWeatherView.get
  rw [hv]
  unfold WeatherService.get_forecast_weather
  simp only [List.map]
  unfold CacheWeatherProvider.get_forecast_weather
  rw [hmiss]
  rw [run_cons_non200 404 none (by omega)]
  rcases h : OpenMeteoWeatherProvider.get_forecast_weather env c d with
    _ | ⟨st, dat⟩
  · simp [WeatherService.run]
  · rw [run_single]
    by_cases h200 : st = 200
    · subst h200
      cases dat <;> simp
    · simp [h200]

/-- The upstream forecast lookup, once geocoding succeeded and the daily
arrays passed the emptiness guard, is the scan of the date list. -/
theorem openmeteo_forecast_scan (env : OpenMeteoEnv) (c : String) (d : Nat)
    (daily : DailyData)
    (hg : (OpenMeteoWeatherProvider._get_geocoding env.geocodingResp).1 = 200)
    (hf : env.forecastResp = .ok ⟨some daily⟩)
    (hne1 : daily.time ≠ []) (hne2 : daily.temperature_2m_min ≠ [])
    (hne3 : daily.temperature_2m_max ≠ []) :
    OpenMeteoWeatherProvider.get_forecast_weather env c d =
      match daily.time.findIdx? (fun s => s == toString d) with
      | none => some (404, none)
      | some i =>
          match daily.temperature_2m_min[i]?,
                daily.temperature_2m_max[i]? with
          | some mn, some mx => some (200, some ⟨mn, mx⟩)
          | _, _ => none := by
  obtain ⟨gd, hgd⟩ := geocoding_ok_has_data env.geocodingResp hg
  unfold OpenMeteoWeatherProvider.get_forecast_weather
  rw [hf]
  simp [hg, hgd, hne1, hne2, hne3]

/-- One-step unfolding of the instrumented loop at a leading 200 result. -/
theorem runTrace_cons_200 {δ : Type} (dat : Option δ)
    (rs : List (Option (Nat × Option δ))) :
    WeatherService.runTrace (some (200, dat) :: rs) =
      ([some (200, dat)], some (200, dat)) := by
  cases rs <;> simp [WeatherService.runTrace]

/-- One-step unfolding of the instrumented loop at a leading non-200 result
with providers remaining. -/
theorem runTrace_cons_non200 {δ : Type} (st : Nat) (dat : Option δ)
    (hst : st ≠ 200) (r : Option (Nat × Option δ))
    (rs : List (Option (Nat × Option δ))) :
    WeatherService.runTrace (some (st, dat) :: r :: rs) =
      (some (st, dat) :: (WeatherService.runTrace (r :: rs)).1,
       (WeatherService.runTrace (r :: rs)).2) := by
  simp [WeatherService.runTrace, hst]

/-- The instrumented loop on a single normally-returning provider. -/
theorem runTrace_single {δ : Type} (st : Nat) (dat : Option δ) :
    WeatherService.runTrace [some (st, dat)] =
      ([some (st, dat)],
       if st = 200 then some (st, dat) else some (st, none)) := by
  by_cases h : st = 200 <;> simp [WeatherService.runTrace, h]

/-- One-step unfolding of the status-200 search past a non-200 result. -/
theorem find200_cons_non200 {δ : Type} (s : Nat) (dat : Option δ)
    (t : List (Nat × Option δ)) (h : s ≠ 200) :
    ((s, dat) :: t).find? (fun r => r.1 == 200) =
      t.find? (fun r => r.1 == 200) := by
  have hs : (s == 200) = false := by simp [h]
  simp [List.find?, hs]

/-- The chain loop over normally-returning provider results: the first result
with status 200 is returned, and with no such result the loop ends with the
last status and no data. -/
theorem run_find_spec {δ : Type} (rs : List (Nat × Option δ)) (hne : rs ≠ []) :
    (∀ x, rs.find? (fun r => r.1 == 200) = some x →
        WeatherService.run (rs.map some) = some x) ∧
    (rs.find? (fun r => r.1 == 200) = none →
        WeatherService.run (rs.map some) = some ((rs.getLastD (0, none)).1, none)) := by
  induction rs with
  | nil => exact absurd rfl hne
  | cons a t ih =>
    obtain ⟨s, dat⟩ := a
    by_cases h200 : s = 200
    · subst h200
      constructor
      · intro x hx
        simp [List.find?] at hx
        simp only [List.map_cons]
        rw [run_cons_200, hx]
      · intro hx
        simp [List.find?] at hx
    · cases t with
      | nil =>
        constructor
        · intro x hx
          rw [find200_cons_non200 s dat [] h200] at hx
          simp at hx
        · intro _
          simp [List.map, run_single, h200, List.getLastD]
      | cons b t2 =>
        have ih2 := ih (by simp)
        constructor
        · intro x hx
          rw [find200_cons_non200 s dat (b :: t2) h200] at hx
          simp only [List.map_cons] at ih2 ⊢
          rw [run_cons_non200 s dat h200]
          exact ih2.1 x hx
        · intro hx
          rw [find200_cons_non200 s dat (b :: t2) h200] at hx
          simp only [List.map_cons] at ih2 ⊢
          rw [run_cons_non200 s dat h200]
          rw [ih2.2 hx]
          simp [List.getLastD]

/-- The instrumented chain loop consumes exactly the provider results up to
and including the first status-200 one (all of them when none succeeds), each
once and in list order, and computes the same result as the plain loop. -/
theorem runTrace_spec {δ : Type} (rs : List (Nat × Option δ)) (hne : rs ≠ []) :
    WeatherService.runTrace (rs.map some) =
      ((rs.take (rs.findIdx (fun r => r.1 == 200) + 1)).map some,
       WeatherService.run (rs.map some)) := by
  induction rs with
  | nil => exact absurd rfl hne
  | cons a t ih =>
    obtain ⟨s, dat⟩ := a
    by_cases h200 : s = 200
    · subst h200
      simp only [List.map_cons]
      rw [runTrace_cons_200, run_cons_200]
      simp [List.findIdx_cons, List.take]
    · have hs : (s == 200) = false := by simp [h200]
      cases t with
      | nil =>
        simp only [List.map]
        rw [runTrace_single, run_single]
        simp [List.findIdx_cons, List.take, h200, hs]
      | cons b t2 =>
        have ih2 := ih (by simp)
        simp only [List.map_cons] at ih2 ⊢
        rw [runTrace_cons_non200 s dat h200, run_cons_non200 s dat h200,
          ih2]
        simp [List.findIdx_cons, List.take, hs]

/-- The chain loop returns a pair whenever there is at least one provider and
every provider returns normally. -/
theorem run_ne_none {δ : Type} (l : List (Option (Nat × Option δ)))
    (hne : l ≠ []) (hok : ∀ o ∈ l, o ≠ none) :
    WeatherService.run l ≠ none := by
  induction l with
  | nil => exact absurd rfl hne
  | cons a t ih =>
    rcases a with _ | ⟨s, dat⟩
    · exact absurd rfl (hok none (by simp))
    · by_cases h200 : s = 200
      · subst h200
        rw [run_cons_200]
        simp
      · cases t with
        | nil => simp [run_single, h200]
        | cons b t2 =>
          rw [run_cons_non200 s dat h200]
          exact ih (by simp) (fun o ho => hok o (List.mem_cons_of_mem _ ho))

/-- A key lookup is determined by the rows filtered on that key: no row. -/
theorem BaseRepo.get_of_filter_nil (store : List Cache) (c : String) (d : Nat)
    (h : store.filter (fun r => r.city == c && r.date == d) = []) :
    BaseRepo.get store c d = .ok none := by
  unfold BaseRepo.get
  rw [h]

/-- A key lookup is determined by the rows filtered on that key: one row. -/
theorem BaseRepo.get_of_filter_single (store : List Cache) (c : String)
    (d : Nat) (r0 : Cache)
    (h : store.filter (fun r => r.city == c && r.date == d) = [r0]) :
    BaseRepo.get store c d = .ok (some r0) := by
  unfold BaseRepo.get
  rw [h]

/-- Appending a fresh row for an unoccupied key makes it the key's only
row. -/
theorem filter_key_append_new (store : List Cache) (c : String) (d : Nat)
    (mn mx : Int)
    (h : store.filter (fun r => r.city == c && r.date == d) = []) :
    (store ++ [(⟨c, d, mn, mx⟩ : Cache)]).filter
        (fun r => r.city == c && r.date == d) = [⟨c, d, mn, mx⟩] := by
  rw [List.filter_append, h]
  simp

/-- Rewriting the temperature fields of every row at a key commutes with
filtering on that key (the update preserves city and date). -/
theorem filter_key_map_upd (store : List Cache) (c : String) (d : Nat)
    (mn mx : Int) :
    (store.map (fun s =>
        if s.city == c && s.date == d then
          { s with min_temperature := mn, max_temperature := mx }
        else s)).filter (fun r => r.city == c && r.date == d) =
      (store.filter (fun r => r.city == c && r.date == d)).map
        (fun s => { s with min_temperature := mn, max_temperature := mx }) := by
  induction store with
  | nil => simp
  | cons a t ih =>
    by_cases hc : a.city = c ∧ a.date = d
    · simp [List.filter_cons, List.map_cons, hc.1, hc.2]
      simpa using ih
    · simp [List.filter_cons, List.map_cons, hc]
      simpa using ih

/-- Rewriting the temperature fields at a key is the identity when every row
at that key already holds those temperatures. -/
theorem map_upd_eq_self (store : List Cache) (c : String) (d : Nat)
    (mn mx : Int)
    (h : ∀ s ∈ store, (s.city == c && s.date == d) = true →
      s.min_temperature = mn ∧ s.max_temperature = mx) :
    store.map (fun s =>
        if s.city == c && s.date == d then
          { s with min_temperature := mn, max_temperature := mx }
        else s) = store := by
  induction store with
  | nil => simp
  | cons a t ih =>
    simp only [List.map_cons]
    rw [ih (fun s hs hk => h s (List.mem_cons_of_mem _ hs) hk)]
    by_cases hk : (a.city == c && a.date == d) = true
    · obtain ⟨hA, hB⟩ := h a (by simp) hk
      cases a
      simp_all
    · simp [hk]

/-! ## Claims -/

/-- Claim C1: for every valid `GET /forecast` request with city `c` and date
`d` such that an override record for (c, d) exists in the override store, the
response is 200 with exactly that record's (min_temperature,
max_temperature). The upstream environment `env` is universally quantified
and absent from the right-hand side, so the upstream provider's responses
cannot influence the result: upstream is never consulted. -/
theorem C1_override_shortcircuit (today : Nat) (store : List Cache)
    (env : OpenMeteoEnv) (c : String) (d : Nat) (r0 : Cache)
    (h1 : 0 < c.length) (h2 : c.length ≤ 20)
    (h3 : today ≤ d) (h4 : d ≤ today + 10)
    (hov : BaseRepo.get store c d = .ok (some r0)) :
    ForecastWeatherView.get today store env ⟨some c, some d⟩ =
      .ok ⟨r0.min_temperature, r0.max_temperature⟩ :=
  view_get_cache_hit today store env c d r0
    (run_validation_of_valid today c d h1 h2 h3 h4) hov

/-- Witness for C1 at a concrete store, request and (irrelevant) upstream
environment. -/
theorem C1_override_shortcircuit_witness :
    ForecastWeatherView.get 0 [⟨"Berlin", 3, 10, 20⟩]
      ⟨.requestError, .requestError, .requestError, 0⟩
      ⟨some "Berlin", some 3⟩ = .ok ⟨10, 20⟩ :=
  C1_override_shortcircuit 0 [⟨"Berlin", 3, 10, 20⟩]
    ⟨.requestError, .requestError, .requestError, 0⟩ "Berlin" 3
    ⟨"Berlin", 3, 10, 20⟩ (by decide) (by decide) (by decide) (by decide)
    (by rfl)

/-- Claim C6: date validation on both the read serializer and the write
serializer accepts exactly the dates in the window [today, today + 10 days]
(in particular both boundary dates) and rejects exactly the dates strictly
before today or strictly after today + 10 days. -/
theorem C6_date_window (today d : Nat) :
    (ForecastWeatherSerializer.validate_date today d = some d ↔
      today ≤ d ∧ d ≤ today + 10) ∧
    (ForecastWeatherSerializer.validate_date today d = none ↔
      (d < today ∨ today + 10 < d)) ∧
    (ForecastCacheWeatherSerializer.validate_date today d = some d ↔
      today ≤ d ∧ d ≤ today + 10) ∧
    (ForecastCacheWeatherSerializer.validate_date today d = none ↔
      (d < today ∨ today + 10 < d)) ∧
    ForecastWeatherSerializer.validate_date today today = some today ∧
    ForecastWeatherSerializer.validate_date today (today + 10) =
      some (today + 10) ∧
    ForecastCacheWeatherSerializer.validate_date today today = some today ∧
    ForecastCacheWeatherSerializer.validate_date today (today + 10) =
      some (today + 10) := by
  refine ⟨?_, ?_, ?_, ?_, ?_, ?_, ?_, ?_⟩ <;>
    simp only [ForecastWeatherSerializer.validate_date,
      ForecastCacheWeatherSerializer.validate_date] <;>
    split_ifs <;> simp_all

/-- Witness for C6: day 15 lies in the window of day 5 and is accepted; it is
the upper boundary day 5 + 10. -/
theorem C6_date_window_witness :
    ForecastWeatherSerializer.validate_date 5 15 = some 15 ∧
    ForecastCacheWeatherSerializer.validate_date 5 4 = none :=
  ⟨(C6_date_window 5 15).1.mpr (by decide),
   (C6_date_window 5 4).2.2.2.1.mpr (by decide)⟩

/-- Claim C7: every `POST /forecast` payload whose `min_temperature` exceeds
its `max_temperature` is rejected with a validation error (HTTP 400) and the
override store is left unchanged, whatever the state of the other fields. -/
theorem C7_min_gt_max_rejected (today : Nat) (store : List Cache)
    (p : PostPayload) (mn mx : Int)
    (hmn : p.min_temperature = some mn) (hmx : p.max_temperature = some mx)
    (hgt : mn > mx) :
    ForecastWeatherView.post today store p = (store, .validationError) := by
  obtain ⟨pc, pd, pmn, pmx⟩ := p
  simp only at hmn hmx
  subst hmn hmx
  have hval : ForecastCacheWeatherSerializer.run_validation today
      ⟨pc, pd, some mn, some mx⟩ = none := by
    unfold ForecastCacheWeatherSerializer.run_validation
    dsimp only
    cases pc with
    | none => rfl
    | some c =>
      cases pd with
      | none => rfl
      | some d =>
        dsimp only
        by_cases hlen : 0 < c.length ∧ c.length ≤ 20
        · rw [if_pos hlen]
          cases hvd : ForecastCacheWeatherSerializer.validate_date today d with
          | none => rfl
          | some d2 =>
            unfold ForecastCacheWeatherSerializer.validate
            rw [if_pos (by omega)]
        · rw [if_neg hlen]
  unfold ForecastWeatherView.post
  rw [hval]

/-- Witness for C7 at a concrete inverted payload. -/
theorem C7_min_gt_max_rejected_witness :
    ForecastWeatherView.post 0 [] ⟨some "Berlin", some 3, some 9, some 2⟩ =
      ([], .validationError) :=
  C7_min_gt_max_rejected 0 [] ⟨some "Berlin", some 3, some 9, some 2⟩ 9 2
    rfl rfl (by decide)

/-- Claim C8: the geocoding call with a non-empty `results` list uses exactly
the first result (its latitude, longitude and timezone); an absent or empty
`results` list yields status 404; and a first result lacking the `timezone`
field yields the literal timezone string `"auto"`. -/
theorem C8_geocoding_first_result :
    (∀ (r : GeoResult) (rest : List GeoResult),
        OpenMeteoWeatherProvider._get_geocoding (.ok ⟨some (r :: rest)⟩) =
          (200, some ⟨r.latitude, r.longitude, r.timezone.getD "auto"⟩)) ∧
    OpenMeteoWeatherProvider._get_geocoding (.ok ⟨none⟩) = (404, none) ∧
    OpenMeteoWeatherProvider._get_geocoding (.ok ⟨some []⟩) = (404, none) ∧
    (∀ (lat lon : Int) (rest : List GeoResult),
        OpenMeteoWeatherProvider._get_geocoding
            (.ok ⟨some (⟨lat, lon, none⟩ :: rest)⟩) =
          (200, some ⟨lat, lon, "auto"⟩)) :=
  ⟨fun r rest => rfl, rfl, rfl, fun lat lon rest => rfl⟩

/-- Witness for C8: a single geocoding result without a timezone field. -/
theorem C8_geocoding_first_result_witness :
    OpenMeteoWeatherProvider._get_geocoding (.ok ⟨some [⟨1, 2, none⟩]⟩) =
      (200, some ⟨1, 2, "auto"⟩) :=
  C8_geocoding_first_result.2.2.2 1 2 []

/-- Claim C2: for every provider list and every (city, date), the chain
queries the providers in the given fixed order and, over the resulting list
`rs` of (normally returned) provider results: it returns the first result
whose status is 200; when no result has status 200 it returns the status of
the last provider tried, with no data; and the instrumented loop records that
exactly the results up to and including the first success (all of them
otherwise) are consumed, each provider once, in order, with no retry. -/
theorem C2_chain_first_success {δ : Type}
    (ps : List (String → Nat → Option (Nat × Option δ)))
    (c : String) (d : Nat) (rs : List (Nat × Option δ))
    (hmap : ps.map (fun p => p c d) = rs.map some) (hne : rs ≠ []) :
    (∀ x, rs.find? (fun r => r.1 == 200) = some x →
        WeatherService.get_forecast_weather ps c d = some x) ∧
    (rs.find? (fun r => r.1 == 200) = none →
        WeatherService.get_forecast_weather ps c d =
          some ((rs.getLastD (0, none)).1, none)) ∧
    WeatherService.runTrace (rs.map some) =
      ((rs.take (rs.findIdx (fun r => r.1 == 200) + 1)).map some,
       WeatherService.get_forecast_weather ps c d) := by
  have hrun : WeatherService.get_forecast_weather ps c d =
      WeatherService.run (rs.map some) := by
    unfold WeatherService.get_forecast_weather
    rw [hmap]
  obtain ⟨hfind, hnone⟩ := run_find_spec rs hne
  refine ⟨?_, ?_, ?_⟩
  · intro x hx
    rw [hrun]
    exact hfind x hx
  · intro hx
    rw [hrun]
    exact hnone hx
  · rw [hrun]
    exact runTrace_spec rs hne

/-- Witness for C2: a two-provider chain whose first source answers 404 and
whose second answers 200. -/
theorem C2_chain_first_success_witness :
    WeatherService.get_forecast_weather
        [fun _ _ => some (404, none),
         fun _ _ => some (200, some (⟨1, 2⟩ : ForecastData))] "Berlin" 0 =
      some (200, some ⟨1, 2⟩) :=
  (C2_chain_first_success
      [fun _ _ => some (404, none),
       fun _ _ => some (200, some (⟨1, 2⟩ : ForecastData))] "Berlin" 0
      [(404, none), (200, some ⟨1, 2⟩)] rfl (by simp)).1
    (200, some ⟨1, 2⟩) rfl

/-- Claim C9: the two `WeatherService` entry points return a (status, data)
pair whenever the provider list is non-empty and every provider returns
normally, but on the empty provider list the loop falls through with the
local `status` unbound and the call raises instead of returning a pair
(modelled by the `none` result). -/
theorem C9_empty_provider_list (c : String) (d : Nat) :
    WeatherService.get_current_weather
        ([] : List (String → Option (Nat × Option CurrentData))) c = none ∧
    WeatherService.get_forecast_weather
        ([] : List (String → Nat → Option (Nat × Option ForecastData))) c d =
      none ∧
    (∀ ps : List (String → Option (Nat × Option CurrentData)), ps ≠ [] →
        (∀ p ∈ ps, p c ≠ none) →
        WeatherService.get_current_weather ps c ≠ none) ∧
    (∀ ps : List (String → Nat → Option (Nat × Option ForecastData)),
        ps ≠ [] → (∀ p ∈ ps, p c d ≠ none) →
        WeatherService.get_forecast_weather ps c d ≠ none) := by
  refine ⟨rfl, rfl, ?_, ?_⟩
  · intro ps hne hok
    unfold WeatherService.get_current_weather
    refine run_ne_none _ (by simpa using hne) ?_
    intro o ho
    obtain ⟨p, hp, hpo⟩ := List.mem_map.mp ho
    exact hpo ▸ hok p hp
  · intro ps hne hok
    unfold WeatherService.get_forecast_weather
    refine run_ne_none _ (by simpa using hne) ?_
    intro o ho
    obtain ⟨p, hp, hpo⟩ := List.mem_map.mp ho
    exact hpo ▸ hok p hp

/-- Witness for C9: the empty chain crashes; a singleton well-behaved chain
returns a pair. -/
theorem C9_empty_provider_list_witness :
    WeatherService.get_forecast_weather
        ([] : List (String → Nat → Option (Nat × Option ForecastData)))
        "Berlin" 0 = none ∧
    WeatherService.get_forecast_weather
        [fun _ _ => some (404, (none : Option ForecastData))] "Berlin" 0 ≠
      none :=
  ⟨(C9_empty_provider_list "Berlin" 0).2.1,
   (C9_empty_provider_list "Berlin" 0).2.2.2
     [fun _ _ => some (404, none)] (by simp)
     (fun p hp => by simp at hp; rw [hp]; simp)⟩

/-- Claim C3: for each of the three upstream calls (geocoding, forecast,
current weather — the latter two once geocoding has succeeded), a connection
failure is classified 503, a timeout 504, and any other transport/HTTP
failure 500; a 2xx response whose guarded expected fields are absent or
malformed (missing `daily`, an empty daily array, a missing or empty
`current_weather`, a `current_weather` without `temperature`) is classified
500. All these statuses are 503, 504 or 500, never 404. -/
theorem C3_transport_fault_mapping (c : String) (d : Nat)
    (g : HttpResp GeoBody) (cb : HttpResp CurrentBody)
    (fb : HttpResp ForecastBody) (now : Int)
    (hg : (OpenMeteoWeatherProvider._get_geocoding g).1 = 200) :
    (OpenMeteoWeatherProvider._get_geocoding .connectionError = (503, none) ∧
     OpenMeteoWeatherProvider._get_geocoding .timeout = (504, none) ∧
     OpenMeteoWeatherProvider._get_geocoding .requestError = (500, none)) ∧
    (OpenMeteoWeatherProvider.get_forecast_weather
        ⟨g, .connectionError, cb, now⟩ c d = some (503, none) ∧
     OpenMeteoWeatherProvider.get_forecast_weather
        ⟨g, .timeout, cb, now⟩ c d = some (504, none) ∧
     OpenMeteoWeatherProvider.get_forecast_weather
        ⟨g, .requestError, cb, now⟩ c d = some (500, none) ∧
     OpenMeteoWeatherProvider.get_forecast_weather
        ⟨g, .ok ⟨none⟩, cb, now⟩ c d = some (500, none) ∧
     (∀ (dates : List String) (mins maxs : List Int),
        (dates = [] ∨ mins = [] ∨ maxs = []) →
        OpenMeteoWeatherProvider.get_forecast_weather
          ⟨g, .ok ⟨some ⟨dates, mins, maxs⟩⟩, cb, now⟩ c d =
            some (500, none))) ∧
    (OpenMeteoWeatherProvider.get_current_weather
        ⟨g, fb, .connectionError, now⟩ c = some (503, none) ∧
     OpenMeteoWeatherProvider.get_current_weather
        ⟨g, fb, .timeout, now⟩ c = some (504, none) ∧
     OpenMeteoWeatherProvider.get_current_weather
        ⟨g, fb, .requestError, now⟩ c = some (500, none) ∧
     (∀ u : Option Int,
        OpenMeteoWeatherProvider.get_current_weather
          ⟨g, fb, .ok ⟨none, u⟩, now⟩ c = some (500, none)) ∧
     (∀ u : Option Int,
        OpenMeteoWeatherProvider.get_current_weather
          ⟨g, fb, .ok ⟨some ⟨none⟩, u⟩, now⟩ c = some (500, none))) := by
  obtain ⟨gd, hgd⟩ := geocoding_ok_has_data g hg
  refine ⟨⟨rfl, rfl, rfl⟩, ⟨?_, ?_, ?_, ?_, ?_⟩, ⟨?_, ?_, ?_, ?_, ?_⟩⟩
  · simp [OpenMeteoWeatherProvider.get_forecast_weather, hg, hgd]
  · simp [OpenMeteoWeatherProvider.get_forecast_weather, hg, hgd]
  · simp [OpenMeteoWeatherProvider.get_forecast_weather, hg, hgd]
  · simp [OpenMeteoWeatherProvider.get_forecast_weather, hg, hgd]
  · intro dates mins maxs hemp
    rcases hemp with h | h | h <;>
      simp [OpenMeteoWeatherProvider.get_forecast_weather, hg, hgd, h]
  · simp [OpenMeteoWeatherProvider.get_current_weather, hg, hgd]
  · simp [OpenMeteoWeatherProvider.get_current_weather, hg, hgd]
  · simp [OpenMeteoWeatherProvider.get_current_weather, hg, hgd]
  · intro u
    simp [OpenMeteoWeatherProvider.get_current_weather, hg, hgd]
  · intro u
    simp [OpenMeteoWeatherProvider.get_current_weather, hg, hgd]

/-- Witness for C3: the forecast call behind a successful geocoding answer,
hitting a connection failure, is classified 503. -/
theorem C3_transport_fault_mapping_witness :
    OpenMeteoWeatherProvider.get_forecast_weather
        ⟨.ok ⟨some [⟨0, 0, none⟩]⟩, .connectionError, .requestError, 0⟩
        "Berlin" 0 = some (503, none) :=
  (C3_transport_fault_mapping "Berlin" 0 (.ok ⟨some [⟨0, 0, none⟩]⟩)
      .requestError .requestError 0 rfl).2.1.1

/-- Claim C5: on a valid `GET /forecast` request with no override for
(city, date) and a successful geocoding call, the upstream daily series is
scanned for an exact string match of the requested date: a match at index `i`
yields 200 with the min/max temperatures paired at index `i`, and no match
anywhere in the returned date list yields the 404 `NotFound` response. -/
theorem C5_upstream_exact_date_match (today : Nat) (store : List Cache)
    (env : OpenMeteoEnv) (c : String) (d : Nat) (daily : DailyData)
    (h1 : 0 < c.length) (h2 : c.length ≤ 20)
    (h3 : today ≤ d) (h4 : d ≤ today + 10)
    (hmiss : BaseRepo.get store c d = .ok none)
    (hg : (OpenMeteoWeatherProvider._get_geocoding env.geocodingResp).1 = 200)
    (hf : env.forecastResp = .ok ⟨some daily⟩)
    (hne1 : daily.time ≠ []) (hne2 : daily.temperature_2m_min ≠ [])
    (hne3 : daily.temperature_2m_max ≠ []) :
    (∀ i mn mx, daily.time.findIdx? (fun s => s == toString d) = some i →
        daily.temperature_2m_min[i]? = some mn →
        daily.temperature_2m_max[i]? = some mx →
        ForecastWeatherView.get today store env ⟨some c, some d⟩ =
          .ok ⟨mn, mx⟩) ∧
    (daily.time.findIdx? (fun s => s == toString d) = none →
        ForecastWeatherView.get today store env ⟨some c, some d⟩ =
          .notFound) := by
  have hv := run_validation_of_valid today c d h1 h2 h3 h4
  have hvm := view_get_cache_miss today store env c d hv hmiss
  have hscan := openmeteo_forecast_scan env c d daily hg hf hne1 hne2 hne3
  constructor
  · intro i mn mx hidx hmn hmx
    rw [hvm, hscan, hidx]
    dsimp only
    rw [hmn, hmx]
    rfl
  · intro hidx
    rw [hvm, hscan, hidx]
    rfl

/-- Witness for C5: a request date matching the second entry of the upstream
series returns the temperatures paired at that index. -/
theorem C5_upstream_exact_date_match_witness :
    ForecastWeatherView.get 0 []
        ⟨.ok ⟨some [⟨0, 0, none⟩]⟩,
         .ok ⟨some ⟨["0", "3"], [5, 7], [6, 9]⟩⟩, .requestError, 0⟩
        ⟨some "Berlin", some 3⟩ = .ok ⟨7, 9⟩ :=
  (C5_upstream_exact_date_match 0 []
      ⟨.ok ⟨some [⟨0, 0, none⟩]⟩,
       .ok ⟨some ⟨["0", "3"], [5, 7], [6, 9]⟩⟩, .requestError, 0⟩
      "Berlin" 3 ⟨["0", "3"], [5, 7], [6, 9]⟩
      (by decide) (by decide) (by decide) (by decide)
      rfl rfl rfl (by simp) (by simp) (by simp)).1
    1 7 9 rfl rfl rfl

/-- Claim C10: the upstream forecast parser assumes the daily `time`,
`temperature_2m_min` and `temperature_2m_max` arrays have equal length: it
guards only against empty arrays, so when the matching date index `i` is not
below the length of the min or the max array, indexing raises an unhandled
`IndexError` (modelled by the `none` result) instead of returning the
classified status 500. -/
theorem C10_length_mismatch_crash (env : OpenMeteoEnv) (c : String) (d : Nat)
    (daily : DailyData) (i : Nat)
    (hg : (OpenMeteoWeatherProvider._get_geocoding env.geocodingResp).1 = 200)
    (hf : env.forecastResp = .ok ⟨some daily⟩)
    (hne1 : daily.time ≠ []) (hne2 : daily.temperature_2m_min ≠ [])
    (hne3 : daily.temperature_2m_max ≠ [])
    (hidx : daily.time.findIdx? (fun s => s == toString d) = some i)
    (hout : daily.temperature_2m_min.length ≤ i ∨
      daily.temperature_2m_max.length ≤ i) :
    OpenMeteoWeatherProvider.get_forecast_weather env c d = none := by
  rw [openmeteo_forecast_scan env c d daily hg hf hne1 hne2 hne3, hidx]
  dsimp only
  rcases hout with h | h
  · rw [List.getElem?_eq_none h]
  · rw [List.getElem?_eq_none h]
    cases daily.temperature_2m_min[i]? <;> rfl

/-- Witness for C10: a min-temperature array shorter than the matching index
makes the provider raise instead of classifying. -/
theorem C10_length_mismatch_crash_witness :
    OpenMeteoWeatherProvider.get_forecast_weather
        ⟨.ok ⟨some [⟨0, 0, none⟩]⟩,
         .ok ⟨some ⟨["0", "3"], [5], [6, 9]⟩⟩, .requestError, 0⟩
        "Berlin" 3 = none :=
  C10_length_mismatch_crash
    ⟨.ok ⟨some [⟨0, 0, none⟩]⟩,
     .ok ⟨some ⟨["0", "3"], [5], [6, 9]⟩⟩, .requestError, 0⟩
    "Berlin" 3 ⟨["0", "3"], [5], [6, 9]⟩ 1 rfl rfl
    (by simp) (by simp) (by simp) rfl (by simp)

/-- A repeated identical `POST /forecast` is a no-op: when the key's only row
already holds the posted temperatures, the upsert updates it to itself and
reports `created = false`. -/
theorem post_existing_noop (today : Nat) (store1 : List Cache) (c : String)
    (d : Nat) (mn mx : Int) (r1 : Cache)
    (hval : ForecastCacheWeatherSerializer.run_validation today
      ⟨some c, some d, some mn, some mx⟩ = some ⟨c, d, mn, mx⟩)
    (hflt1 : store1.filter (fun r => r.city == c && r.date == d) = [r1])
    (hmin : r1.min_temperature = mn) (hmax : r1.max_temperature = mx) :
    ForecastWeatherView.post today store1 ⟨some c, some d, some mn, some mx⟩ =
      (store1, .ok false) := by
  have hget1 := BaseRepo.get_of_filter_single store1 c d r1 hflt1
  have hid : store1.map (fun s =>
      if s.city == c && s.date == d then
        { s with min_temperature := mn, max_temperature := mx } else s) =
      store1 := by
    refine map_upd_eq_self store1 c d mn mx ?_
    intro s hs hk
    have hsf : s ∈ store1.filter (fun r => r.city == c && r.date == d) :=
      List.mem_filter.mpr ⟨hs, hk⟩
    rw [hflt1] at hsf
    simp at hsf
    subst hsf
    exact ⟨hmin, hmax⟩
  unfold ForecastWeatherView.post
  rw [hval]
  dsimp only
  unfold BaseRepo.create_or_update
  rw [hget1]
  dsimp only
  rw [hid]

/-- Claim C4: a valid `POST /forecast` (min ≤ max, date in the window)
followed by `GET /forecast` for the same (city, date) returns 200 with
exactly the written pair, for every upstream environment; the write reports
`created = true` exactly when no row for the key existed; and repeating the
same POST leaves the store unchanged and reports `created = false`. -/
theorem C4_post_get_roundtrip (today : Nat) (store : List Cache)
    (env : OpenMeteoEnv) (c : String) (d : Nat) (mn mx : Int)
    (h1 : 0 < c.length) (h2 : c.length ≤ 20)
    (h3 : today ≤ d) (h4 : d ≤ today + 10) (hmm : mn ≤ mx)
    (huniq : (store.filter (fun r => r.city == c && r.date == d)).length ≤ 1) :
    ∃ store1,
      ForecastWeatherView.post today store ⟨some c, some d, some mn, some mx⟩ =
        (store1,
         .ok (store.filter (fun r => r.city == c && r.date == d)).isEmpty) ∧
      ForecastWeatherView.get today store1 env ⟨some c, some d⟩ =
        .ok ⟨mn, mx⟩ ∧
      ForecastWeatherView.post today store1
          ⟨some c, some d, some mn, some mx⟩ = (store1, .ok false) := by
  have hval := cache_run_validation_of_valid today c d mn mx h1 h2 h3 h4 hmm
  have hvget := run_validation_of_valid today c d h1 h2 h3 h4
  rcases hflt : store.filter (fun r => r.city == c && r.date == d) with
    _ | ⟨r0, rest⟩
  · -- no row for the key yet: the POST appends a fresh row
    have hget : BaseRepo.get store c d = .ok none :=
      BaseRepo.get_of_filter_nil store c d hflt
    have hflt1 : (store ++ [(⟨c, d, mn, mx⟩ : Cache)]).filter
        (fun r => r.city == c && r.date == d) = [⟨c, d, mn, mx⟩] :=
      filter_key_append_new store c d mn mx hflt
    have hget1 : BaseRepo.get (store ++ [(⟨c, d, mn, mx⟩ : Cache)]) c d =
        .ok (some ⟨c, d, mn, mx⟩) :=
      BaseRepo.get_of_filter_single _ c d _ hflt1
    refine ⟨store ++ [⟨c, d, mn, mx⟩], ?_, ?_, ?_⟩
    · unfold ForecastWeatherView.post
      rw [hval, hflt]
      dsimp only
      unfold BaseRepo.create_or_update
      rw [hget]
      rfl
    · exact view_get_cache_hit today _ env c d _ hvget hget1
    · exact post_existing_noop today _ c d mn mx _ hval hflt1 rfl rfl
  · -- a row for the key exists: the POST rewrites its temperatures
    have hrest : rest = [] := by
      rw [hflt] at huniq
      cases rest with
      | nil => rfl
      | cons x xs => simp at huniq
    subst hrest
    have hget : BaseRepo.get store c d = .ok (some r0) :=
      BaseRepo.get_of_filter_single store c d r0 hflt
    have hflt1 : (store.map (fun s =>
        if s.city == c && s.date == d then
          { s with min_temperature := mn, max_temperature := mx }
        else s)).filter (fun r => r.city == c && r.date == d) =
        [{ r0 with min_temperature := mn, max_temperature := mx }] := by
      rw [filter_key_map_upd, hflt]
      rfl
    refine ⟨store.map (fun s =>
        if s.city == c && s.date == d then
          { s with min_temperature := mn, max_temperature := mx }
        else s), ?_, ?_, ?_⟩
    · unfold ForecastWeatherView.post
      rw [hval, hflt]
      dsimp only
      unfold BaseRepo.create_or_update
      rw [hget]
      rfl
    · exact view_get_cache_hit today _ env c d _ hvget
        (BaseRepo.get_of_filter_single _ c d _ hflt1)
    · exact post_existing_noop today _ c d mn mx _ hval hflt1 rfl rfl

/-- Witness for C4: writing (1, 2) for ("Berlin", day 3) into the empty
store, then reading it back. -/
theorem C4_post_get_roundtrip_witness :
    ∃ store1,
      ForecastWeatherView.post 0 [] ⟨some "Berlin", some 3, some 1, some 2⟩ =
        (store1, .ok true) ∧
      ForecastWeatherView.get 0 store1
          ⟨.requestError, .requestError, .requestError, 0⟩
          ⟨some "Berlin", some 3⟩ = .ok ⟨1, 2⟩ ∧
      ForecastWeatherView.post 0 store1
          ⟨some "Berlin", some 3, some 1, some 2⟩ = (store1, .ok false) :=
  C4_post_get_roundtrip 0 [] ⟨.requestError, .requestError, .requestError, 0⟩
    "Berlin" 3 1 2 (by decide) (by decide) (by decide) (by decide)
    (by decide) (by simp)

end Weather
